import Mathlib

/-!
Shallow embedding of terraform-provider-venafi-token.

The embedding covers:
* the terraform nullable attribute values (`types.String` / `types.Int64`,
  modelled as `Option String` / `Option Int` with the Go zero-value
  accessors `ValueString` / `ValueInt64`);
* `internal/model.CredentialResourceData`;
* `internal/vcertclient` (`VerifyTokenExpired`, `RequestNewTokenPair`,
  `RevokeToken`, `refreshAccessToken`, `getAccessTokenByP12`,
  `getAccessTokenByUsernamePassword`, `getAccessToken`,
  `configureTLSClient`, `createVCertConfig`);
* `internal/provider` (`Read`, `rotateToken`, `Delete`, `ImportState`,
  `getValuesMap`, `credentialUnknownModifier.PlanModifyInt64`).

External collaborators (the vcert SDK / TPP endpoints, the filesystem and
the TLS primitives) are modelled as an oracle `Env` supplying the outcome
of each outbound call, so that the control flow of the Go functions can be
reproduced faithfully while the remote behaviour stays abstract.
-/

namespace VenafiToken

/-- `types.String.ValueString` / the Go accessor: a null value reads as `""`. -/
def valueString (o : Option String) : String := o.getD ""

/-- `types.Int64.ValueInt64`: a null value reads as `0`. -/
def valueInt64 (o : Option Int) : Int := o.getD 0

/-- `types.String.IsNull` / `types.Int64.IsNull`. -/
def isNull {α : Type} (o : Option α) : Bool := o.isNone

/-- `internal/model.CredentialResourceData`: the persisted credential state. -/
structure CredentialResourceData where
  url : Option String
  username : Option String
  password : Option String
  p12Certificate : Option String
  p12Password : Option String
  accessToken : Option String
  refreshToken : Option String
  clientID : Option String
  expirationDate : Option Int
  trustBundle : Option String
  refreshWindow : Option Int
  deriving Repr, DecidableEq

/-- The all-null state `model.CredentialResourceData{}`. -/
def emptyCredential : CredentialResourceData :=
  { url := none, username := none, password := none, p12Certificate := none
    p12Password := none, accessToken := none, refreshToken := none
    clientID := none, expirationDate := none, trustBundle := none
    refreshWindow := none }

/-- Error values of the client wrapped as a datatype; each constructor stands
for one distinct `fmt.Errorf` shape in the source, `transport` for an opaque
error coming back from an external collaborator. -/
inductive VErr where
  | transport (code : Nat)
  | noAuthMethod
  | allMethodsFailed
  | vcertWrap (e : VErr)
  | trustBundleRead (location : String) (e : VErr)
  | p12Read (location : String) (e : VErr)
  | pkcs12Decode (e : VErr)
  | x509KeyPair (e : VErr)
  | malformedImport (item : String)
  | invalidRefreshWindow (value : String)
  deriving Repr, DecidableEq

/-- `vcertclient.RefreshTokenResponse`. -/
structure RefreshTokenResponse where
  accessToken : String
  refreshToken : String
  expires : Int
  deriving Repr, DecidableEq

/-- The fields of `endpoint.Authentication` that `getAccessToken` fills. -/
structure AuthPayload where
  clientId : String
  clientPKCS12 : Bool
  user : String
  password : String
  deriving Repr, DecidableEq

/-- The fields of `vcert.Config` that `createVCertConfig` fills. -/
structure VCertConfig where
  baseUrl : String
  connectionTrust : String
  deriving Repr, DecidableEq

/-- A TLS client certificate derived from PEM data (`tls.X509KeyPair`). -/
structure TLSCertificate where
  pem : String
  deriving Repr, DecidableEq

/-- The fields of `tls.Config` that `configureTLSClient` fills. -/
structure TLSClientConfig where
  renegotiateFreelyAsClient : Bool
  certificates : List TLSCertificate
  rootCAsPEM : String
  deriving Repr, DecidableEq

/-- The fields of `http.Transport` that `configureTLSClient` fills. -/
structure Transport where
  disableKeepAlives : Bool
  forceAttemptHTTP2 : Bool
  tlsClientConfig : Option TLSClientConfig
  deriving Repr, DecidableEq

/-- Process-wide mutable state: `http.DefaultTransport`, shared by every
request that does not carry its own transport. -/
structure Globals where
  defaultTransport : Transport
  deriving Repr, DecidableEq

/-- Oracle for the external collaborators: the outcome of each outbound call
(filesystem reads, vcert client construction, the TPP endpoints, and the TLS
primitives), as a function of what the code passes to them. -/
structure Env where
  readFile : String → Except VErr String
  newClient : Except VErr Unit
  verifyAccessToken : String → Except VErr Unit
  refreshAccessTokenCall : String → String → Except VErr RefreshTokenResponse
  getRefreshTokenCall : AuthPayload → Except VErr RefreshTokenResponse
  revokeAccessToken : String → Except VErr Unit
  pkcs12ToPEM : String → String → Except VErr String
  x509KeyPair : String → Except VErr TLSCertificate

/-- `vcertclient.createVCertConfig`: builds the vcert config, reading the
trust bundle file when the `trustBundle` attribute is set. -/
def createVCertConfig (cred : CredentialResourceData) (env : Env) :
    Except VErr VCertConfig :=
  if isNull cred.trustBundle then
    .ok { baseUrl := valueString cred.url, connectionTrust := "" }
  else
    match env.readFile (valueString cred.trustBundle) with
    | .error e => .error (.trustBundleRead (valueString cred.trustBundle) e)
    | .ok data => .ok { baseUrl := valueString cred.url, connectionTrust := data }

/-- `vcertclient.VerifyTokenExpired`: builds a config and client, then calls
the remote verify endpoint with the current access token; an error from that
call yields `(expired := true, no error)`, while setup errors propagate. -/
def verifyTokenExpired (cred : CredentialResourceData) (env : Env) :
    Except VErr Bool :=
  match createVCertConfig cred env with
  | .error e => .error e
  | .ok _ =>
    match env.newClient with
    | .error e => .error e
    | .ok _ =>
      match env.verifyAccessToken (valueString cred.accessToken) with
      | .error _ => .ok true
      | .ok _ => .ok false

/-- `vcertclient.refreshAccessToken`: the refresh-token exchange. -/
def refreshAccessToken (cred : CredentialResourceData) (env : Env) :
    Except VErr RefreshTokenResponse :=
  match createVCertConfig cred env with
  | .error e => .error e
  | .ok _ =>
    match env.newClient with
    | .error e => .error e
    | .ok _ =>
      env.refreshAccessTokenCall (valueString cred.refreshToken)
        (valueString cred.clientID)

/-- The transport that `vcertclient.configureTLSClient` builds: read the
PKCS#12 file, decode it with the password into PEM blocks, derive the client
certificate, and fill `tls.Config` / `http.Transport` as the source does. -/
def deriveTLSTransport (cred : CredentialResourceData) (env : Env) :
    Except VErr Transport :=
  let p12Location := valueString cred.p12Certificate
  let password := valueString cred.p12Password
  match env.readFile p12Location with
  | .error e => .error (.p12Read p12Location e)
  | .ok data =>
    match env.pkcs12ToPEM data password with
    | .error e => .error (.pkcs12Decode e)
    | .ok pemData =>
      match env.x509KeyPair pemData with
      | .error e => .error (.x509KeyPair e)
      | .ok cert =>
        .ok { disableKeepAlives := true
              forceAttemptHTTP2 := false
              tlsClientConfig := some
                { renegotiateFreelyAsClient := true
                  certificates := [cert]
                  rootCAsPEM := pemData } }

/-- `vcertclient.configureTLSClient`: on success the built transport is
assigned to the process-wide `http.DefaultTransport` (the `Globals`). -/
def configureTLSClient (cred : CredentialResourceData) (env : Env)
    (g : Globals) : Except VErr Unit × Globals :=
  match deriveTLSTransport cred env with
  | .error e => (.error e, g)
  | .ok t => (.ok (), { defaultTransport := t })

/-- `vcertclient.getAccessToken`: the username/password or client-certificate
exchange, distinguished by the `useClientCertificate` flag. -/
def getAccessToken (cred : CredentialResourceData) (env : Env)
    (useClientCertificate : Bool) : Except VErr RefreshTokenResponse :=
  match createVCertConfig cred env with
  | .error e => .error e
  | .ok _ =>
    match env.newClient with
    | .error e => .error e
    | .ok _ =>
      let auth : AuthPayload :=
        if useClientCertificate then
          { clientId := valueString cred.clientID, clientPKCS12 := true
            user := "", password := "" }
        else
          { clientId := valueString cred.clientID, clientPKCS12 := false
            user := valueString cred.username
            password := valueString cred.password }
      env.getRefreshTokenCall auth

/-- `vcertclient.getAccessTokenByP12`: configure the TLS client from the
PKCS#12 keystore (a failure there is terminal for this method), then run the
client-certificate exchange. -/
def getAccessTokenByP12 (cred : CredentialResourceData) (env : Env) :
    Except VErr RefreshTokenResponse :=
  match deriveTLSTransport cred env with
  | .error e => .error e
  | .ok _ => getAccessToken cred env true

/-- `vcertclient.getAccessTokenByUsernamePassword`. -/
def getAccessTokenByUsernamePassword (cred : CredentialResourceData)
    (env : Env) : Except VErr RefreshTokenResponse :=
  getAccessToken cred env false

/-- `tokenMethod := !c.credData.RefreshToken.IsNull()`. -/
def tokenMethod (cred : CredentialResourceData) : Bool :=
  !(isNull cred.refreshToken)

/-- `p12Method := !P12Certificate.IsNull() && !P12Password.IsNull()`. -/
def p12Method (cred : CredentialResourceData) : Bool :=
  !(isNull cred.p12Certificate) && !(isNull cred.p12Password)

/-- `userMethod := !Username.IsNull() && !Password.IsNull()`. -/
def userMethod (cred : CredentialResourceData) : Bool :=
  !(isNull cred.username) && !(isNull cred.password)

/-- Tags for the three authentication methods of the cascade; the cascade
returns the list of methods whose exchange helper it invoked, in order. -/
inductive AuthMethod where
  | token
  | p12
  | user
  deriving Repr, DecidableEq

/-- The `if userMethod` block of `RequestNewTokenPair`: last method, so a
failure is wrapped and returned. -/
def cascadeUserStage (cred : CredentialResourceData) (env : Env)
    (attempts : List AuthMethod) :
    Except VErr RefreshTokenResponse × List AuthMethod :=
  if userMethod cred then
    match getAccessTokenByUsernamePassword cred env with
    | .ok resp => (.ok resp, attempts ++ [.user])
    | .error e => (.error (.vcertWrap e), attempts ++ [.user])
  else
    (.error .allMethodsFailed, attempts)

/-- The `if p12Method` block of `RequestNewTokenPair`: on failure return the
wrapped error when no user/password method remains, otherwise warn and fall
through to the user/password block. -/
def cascadeP12Stage (cred : CredentialResourceData) (env : Env)
    (attempts : List AuthMethod) :
    Except VErr RefreshTokenResponse × List AuthMethod :=
  if p12Method cred then
    match getAccessTokenByP12 cred env with
    | .ok resp => (.ok resp, attempts ++ [.p12])
    | .error e =>
      if !(userMethod cred) then (.error (.vcertWrap e), attempts ++ [.p12])
      else cascadeUserStage cred env (attempts ++ [.p12])
  else
    cascadeUserStage cred env attempts

/-- The `if tokenMethod` block of `RequestNewTokenPair`: on failure return
the wrapped error when no other method remains, otherwise warn and fall
through to the client-certificate block. -/
def cascadeTokenStage (cred : CredentialResourceData) (env : Env)
    (attempts : List AuthMethod) :
    Except VErr RefreshTokenResponse × List AuthMethod :=
  if tokenMethod cred then
    match refreshAccessToken cred env with
    | .ok resp => (.ok resp, attempts ++ [.token])
    | .error e =>
      if !(p12Method cred) && !(userMethod cred) then
        (.error (.vcertWrap e), attempts ++ [.token])
      else cascadeP12Stage cred env (attempts ++ [.token])
  else
    cascadeP12Stage cred env attempts

/-- `vcertclient.RequestNewTokenPair`: fail immediately when no method has
its fields set, otherwise run the cascade; the second component records
which method helpers were invoked, in order. -/
def requestNewTokenPair (cred : CredentialResourceData) (env : Env) :
    Except VErr RefreshTokenResponse × List AuthMethod :=
  if !(tokenMethod cred) && !(p12Method cred) && !(userMethod cred) then
    (.error .noAuthMethod, [])
  else
    cascadeTokenStage cred env []

/-- `vcertclient.RevokeToken`: build config and client, then call the remote
revoke endpoint with the current access token; every error propagates. -/
def revokeToken (cred : CredentialResourceData) (env : Env) :
    Except VErr Unit :=
  match createVCertConfig cred env with
  | .error e => .error e
  | .ok _ =>
    match env.newClient with
    | .error e => .error e
    | .ok _ => env.revokeAccessToken (valueString cred.accessToken)

/-- `provider.rotateToken`: on client failure the error is returned and the
state is untouched; on success the access token, expiration date and refresh
token are all replaced from the response. -/
def rotateToken (cred : CredentialResourceData) (env : Env) :
    Except VErr Unit × CredentialResourceData :=
  match (requestNewTokenPair cred env).1 with
  | .error e => (.error e, cred)
  | .ok resp =>
    (.ok (),
      { cred with accessToken := some resp.accessToken
                  expirationDate := some resp.expires
                  refreshToken := some resp.refreshToken })

/-- Observable outcome of `CredentialResource.Read`. -/
inductive ReadOutcome where
  | stateSet (data : CredentialResourceData)
  | clientError (e : VErr)
  | tokenValid
  deriving Repr, DecidableEq

/-- `CredentialResource.Read` (the read/observe path): rotate right away
when no access token is present; otherwise verify against the server, rotate
when expired, and otherwise rotate when
`expirationDate - refreshWindow*24*60*60 < now`. -/
def credentialRead (cred : CredentialResourceData) (env : Env) (now : Int) :
    ReadOutcome :=
  if isNull cred.accessToken then
    match rotateToken cred env with
    | (.error e, _) => .clientError e
    | (.ok _, data) => .stateSet data
  else
    match verifyTokenExpired cred env with
    | .error e => .clientError e
    | .ok true =>
      match rotateToken cred env with
      | (.error e, _) => .clientError e
      | (.ok _, data) => .stateSet data
    | .ok false =>
      let refreshWindowSeconds := valueInt64 cred.refreshWindow * 24 * 60 * 60
      if valueInt64 cred.expirationDate - refreshWindowSeconds < now then
        match rotateToken cred env with
        | (.error e, _) => .clientError e
        | (.ok _, data) => .stateSet data
      else
        .tokenValid

/-- Observable outcome of the plan modifier. -/
inductive PlanOutcome where
  | planUnknown
  | planUnchanged
  | planError (e : VErr)
  deriving Repr, DecidableEq

/-- `credentialUnknownModifier.PlanModifyInt64` (the plan-time path).
`verifyResult` stands for the `(expired, expirationDate)` pair returned by
the client's verify call. After a not-expired verification the source
computes `refreshWindowSeconds := data.ExpirationDate.ValueInt64()*24*60*60`
(the expiration attribute, not the refresh window) and marks the plan
unknown when `*expirationDate < now - refreshWindowSeconds`. -/
def planModifyInt64 (cred : CredentialResourceData)
    (verifyResult : Except VErr (Bool × Int)) (now : Int) : PlanOutcome :=
  if isNull cred.accessToken then .planUnknown
  else
    match verifyResult with
    | .error e => .planError e
    | .ok (expired, expirationDate) =>
      if expired then .planUnknown
      else
        let refreshWindowSeconds := valueInt64 cred.expirationDate * 24 * 60 * 60
        if expirationDate < now - refreshWindowSeconds then .planUnknown
        else .planUnchanged

/-- Recursion for `cut`: scan for the first `=`, accumulating the prefix
character-reversed. -/
def cutAux : List Char → List Char → Option (String × String)
  | [], _ => none
  | c :: rest, acc =>
    if c = '=' then some (String.mk acc.reverse, String.mk rest)
    else cutAux rest (c :: acc)

/-- `strings.Cut(item, "=")`: split on the first `=`; `none` when the
separator does not occur. -/
def cut (s : String) : Option (String × String) :=
  cutAux s.toList []

/-- Recursion for `splitOnComma`. -/
def splitOnCommaAux : List Char → List Char → List String
  | [], acc => [String.mk acc.reverse]
  | c :: rest, acc =>
    if c = ',' then String.mk acc.reverse :: splitOnCommaAux rest []
    else splitOnCommaAux rest (c :: acc)

/-- `strings.Split(values, ",")`: the comma-separated entries of the import
string (the empty string yields one empty entry, as in Go). -/
def splitOnComma (s : String) : List String :=
  splitOnCommaAux s.toList []

/-- Assignment `dict[key] = value` on a Go map represented as an association
list: replace the binding when the key exists, append otherwise. -/
def mapInsert : List (String × String) → String → String →
    List (String × String)
  | [], k, v => [(k, v)]
  | (k', v') :: rest, k, v =>
    if k' = k then (k, v) :: rest else (k', v') :: mapInsert rest k v

/-- Lookup `dict[key]` on the association-list map. -/
def mapLookup : List (String × String) → String → Option String
  | [], _ => none
  | (k', v) :: rest, k => if k' = k then some v else mapLookup rest k

/-- The loop of `provider.getValuesMap` over the comma-separated entries:
abort with the malformed-import error on the first entry without `=`,
otherwise store the binding and continue. -/
def getValuesMapLoop : List String → List (String × String) →
    Except VErr (List (String × String))
  | [], dict => .ok dict
  | item :: rest, dict =>
    match cut item with
    | none => .error (.malformedImport item)
    | some (key, value) => getValuesMapLoop rest (mapInsert dict key value)

/-- `provider.getValuesMap`: split the import string on `,` and fold the
entries into a map. -/
def getValuesMap (values : String) : Except VErr (List (String × String)) :=
  getValuesMapLoop (splitOnComma values) []

/-- `defaultClientID`. -/
def defaultClientID : String := "hashicorp-terraform-by-venafi"

/-- `defaultRefreshWindow` (in days). -/
def defaultRefreshWindow : Int := 30

/-- Decimal digits accumulation for `strconv.Atoi`; fails on the first
non-digit character. -/
def digitsVal : List Char → Nat → Option Nat
  | [], acc => some acc
  | c :: rest, acc =>
    if c.isDigit then digitsVal rest (acc * 10 + (c.toNat - 48)) else none

/-- A non-empty all-digit run, as a number. -/
def parseDigits : List Char → Option Nat
  | [] => none
  | cs => digitsVal cs 0

/-- `strconv.Atoi`: optional sign, at least one decimal digit, and the
result must fit in a 64-bit signed integer (out-of-range input errors). -/
def atoi (s : String) : Option Int :=
  match s.toList with
  | '+' :: rest =>
    (parseDigits rest).bind fun n =>
      if n ≤ 9223372036854775807 then some (n : Int) else none
  | '-' :: rest =>
    (parseDigits rest).bind fun n =>
      if n ≤ 9223372036854775808 then some (-(n : Int)) else none
  | cs =>
    (parseDigits cs).bind fun n =>
      if n ≤ 9223372036854775807 then some (n : Int) else none

/-- `CredentialResource.ImportState` (state construction from the import
string): parse the map, copy the recognized string keys into the state when
present, always set `clientID` (default when absent) and `refreshWindow`
(parsed with `strconv.Atoi`, default 30 when absent, error when the value
does not parse). The source never reads the `expiration` key here, so the
`expirationDate` field keeps its zero value (null). -/
def importState (id : String) : Except VErr CredentialResourceData :=
  match getValuesMap id with
  | .error e => .error e
  | .ok dataMap =>
    let data : CredentialResourceData :=
      { url := mapLookup dataMap "url"
        username := mapLookup dataMap "username"
        password := mapLookup dataMap "password"
        p12Certificate := mapLookup dataMap "p12_cert_filename"
        p12Password := mapLookup dataMap "p12_cert_password"
        accessToken := mapLookup dataMap "access_token"
        refreshToken := mapLookup dataMap "refresh_token"
        trustBundle := mapLookup dataMap "trust_bundle"
        clientID := some
          (match mapLookup dataMap "client_id" with
           | some val => val
           | none => defaultClientID)
        expirationDate := none
        refreshWindow := none }
    match mapLookup dataMap "refresh_window" with
    | none => .ok { data with refreshWindow := some defaultRefreshWindow }
    | some val =>
      match atoi val with
      | none => .error (.invalidRefreshWindow val)
      | some valInt => .ok { data with refreshWindow := some valInt }

/-- Observable outcome of `CredentialResource.Delete`. -/
structure DeleteOutcome where
  diagnosticError : Option VErr
  stateRemoved : Bool
  deriving Repr, DecidableEq

/-- `CredentialResource.Delete`: revoke, and only on success remove the
persisted state; a revoke failure is reported as a diagnostic. -/
def credentialDelete (state : CredentialResourceData) (env : Env) :
    DeleteOutcome :=
  match revokeToken state env with
  | .error e => { diagnosticError := some e, stateRemoved := false }
  | .ok _ => { diagnosticError := none, stateRemoved := true }

/-- Modelled from the spec: the canonical rotation formula of section 4.1 /
section 8, `decideRotation == (expirationDate < now - refreshWindowDays*86400)`. -/
def decideRotationSpec (expirationDate refreshWindowDays now : Int) : Bool :=
  expirationDate < now - refreshWindowDays * 86400

/-! Concrete fixtures used by witnesses and counterexamples. -/

/-- A state holding a valid-looking access token, a refresh token, expiry
at 1000100 and a one-day refresh window. -/
def cred1 : CredentialResourceData :=
  { emptyCredential with accessToken := some "tok", refreshToken := some "rt"
                         expirationDate := some 1000100
                         refreshWindow := some 1 }

/-- Environment where verification succeeds (token not expired) and the
refresh-token exchange succeeds. -/
def env1 : Env :=
  { readFile := fun _ => .ok ""
    newClient := .ok ()
    verifyAccessToken := fun _ => .ok ()
    refreshAccessTokenCall := fun _ _ =>
      .ok { accessToken := "at2", refreshToken := "rt2", expires := 2000000 }
    getRefreshTokenCall := fun _ => .error (.transport 1)
    revokeAccessToken := fun _ => .ok ()
    pkcs12ToPEM := fun _ _ => .ok ""
    x509KeyPair := fun _ => .ok { pem := "" } }

/-- Claim C1 (counterexample): with `expirationDate = 1000100`,
`refreshWindow = 1` day, `now = 1000000` and a not-expired verification, the
read path does rotate (it enters the rotation branch and stores the new
triple) although the spec formula `expirationDate < now - refreshWindow*86400`
is false there, and at the very same state the plan-time path does not mark
the plan unknown — so the claimed formula governs neither path, and the two
paths do not agree. -/
theorem read_plan_rotation_formula_counterexample :
    credentialRead cred1 env1 1000000 =
      .stateSet { cred1 with accessToken := some "at2"
                             expirationDate := some 2000000
                             refreshToken := some "rt2" }
    ∧ decideRotationSpec 1000100 1 1000000 = false
    ∧ planModifyInt64 cred1 (.ok (false, 1000100)) 1000000 = .planUnchanged := by
  refine ⟨by decide, by decide, by decide⟩

/-- Claim C1 (amended): for a state with an access token whose server-side
verification reports not-expired, the read path decides rotation exactly
when `expirationDate < now + refreshWindow*86400` (the window precedes the
expiry), while the plan-time path marks the plan unknown exactly when the
verified expiration is below `now - expirationDate*86400` — it uses the
state's expiration attribute, not the refresh window, as the window. The
two paths do not share one formula. -/
theorem read_plan_rotation_formula_amended (cred : CredentialResourceData)
    (env : Env) (now : Int)
    (hTok : isNull cred.accessToken = false)
    (hVerify : verifyTokenExpired cred env = .ok false) :
    (credentialRead cred env now ≠ .tokenValid ↔
      valueInt64 cred.expirationDate < now + valueInt64 cred.refreshWindow * 86400)
    ∧ (∀ ed : Int, planModifyInt64 cred (.ok (false, ed)) now = .planUnknown ↔
        ed < now - valueInt64 cred.expirationDate * 86400) := by
  constructor
  · by_cases hlt :
      valueInt64 cred.expirationDate - valueInt64 cred.refreshWindow * 24 * 60 * 60 < now
    · have hrot : credentialRead cred env now ≠ ReadOutcome.tokenValid := by
        unfold credentialRead
        simp only [hTok, Bool.false_eq_true, if_false, hVerify]
        rw [if_pos hlt]
        rcases h : rotateToken cred env with ⟨r, d⟩
        cases r <;> simp
      simp only [hrot, true_iff, ne_eq, not_false_eq_true]
      omega
    · have hval : credentialRead cred env now = ReadOutcome.tokenValid := by
        unfold credentialRead
        simp only [hTok, Bool.false_eq_true, if_false, hVerify]
        rw [if_neg hlt]
      simp only [hval, ne_eq, not_true_eq_false, false_iff]
      omega
  · intro ed
    unfold planModifyInt64
    simp only [hTok, Bool.false_eq_true, if_false]
    by_cases h : ed < now - valueInt64 cred.expirationDate * 24 * 60 * 60
    · rw [if_pos h]
      simp only [true_iff]
      omega
    · rw [if_neg h]
      simp only [reduceCtorEq, false_iff]
      omega

/-- Claim C1 (amended, witness): the amended statement instantiated at the
concrete state `cred1`, environment `env1` and `now = 1000000`. -/
theorem read_plan_rotation_formula_amended_witness :
    (credentialRead cred1 env1 1000000 ≠ .tokenValid ↔
      valueInt64 cred1.expirationDate <
        1000000 + valueInt64 cred1.refreshWindow * 86400)
    ∧ (∀ ed : Int,
        planModifyInt64 cred1 (.ok (false, ed)) 1000000 = .planUnknown ↔
          ed < 1000000 - valueInt64 cred1.expirationDate * 86400) :=
  read_plan_rotation_formula_amended cred1 env1 1000000 (by decide) rfl

/-- A state with an access token for the verification claims. -/
def cred3 : CredentialResourceData :=
  { emptyCredential with url := some "https://tpp", accessToken := some "tok3" }

/-- Environment where the remote verify call fails with a transport error
while everything before it succeeds. -/
def env3 : Env :=
  { env1 with verifyAccessToken := fun _ => .error (.transport 7) }

/-- Claim C3: when the setup (config build and client construction) succeeds
and the remote verification call made with the current access token fails
with any error, `VerifyTokenExpired` reports `expired = true` with no error;
moreover its result never depends on the state's expiration timestamp (no
local expiry check is performed). -/
theorem verifyTokenExpired_fail_safe (cred : CredentialResourceData)
    (env : Env) (e : VErr)
    (hcfg : ∃ cfg, createVCertConfig cred env = .ok cfg)
    (hnc : env.newClient = .ok ())
    (hv : env.verifyAccessToken (valueString cred.accessToken) = .error e) :
    verifyTokenExpired cred env = .ok true
    ∧ ∀ d : Option Int,
        verifyTokenExpired { cred with expirationDate := d } env =
          verifyTokenExpired cred env := by
  obtain ⟨cfg, hcfg⟩ := hcfg
  refine ⟨?_, ?_⟩
  · simp [verifyTokenExpired, hcfg, hnc, hv]
  · intro d
    simp [verifyTokenExpired, createVCertConfig]

/-- Claim C3 (witness): the fail-safe behaviour at the concrete state
`cred3` under the failing-verification environment `env3`. -/
theorem verifyTokenExpired_fail_safe_witness :
    verifyTokenExpired cred3 env3 = .ok true
    ∧ ∀ d : Option Int,
        verifyTokenExpired { cred3 with expirationDate := d } env3 =
          verifyTokenExpired cred3 env3 :=
  verifyTokenExpired_fail_safe cred3 env3 (.transport 7) ⟨_, rfl⟩ rfl rfl

/-- Claim C6: when none of the three methods has its required fields set,
`RequestNewTokenPair` returns the no-auth-method error with an empty attempt
list, and this outcome is the same for every environment — no external call
can influence it, so no network call is made. -/
theorem requestNewTokenPair_no_auth_method (cred : CredentialResourceData)
    (h1 : tokenMethod cred = false) (h2 : p12Method cred = false)
    (h3 : userMethod cred = false) :
    ∀ env : Env, requestNewTokenPair cred env = (.error .noAuthMethod, []) := by
  intro env
  simp [requestNewTokenPair, h1, h2, h3]

/-- Claim C6 (witness): the all-null state under the concrete environment
`env1` fails immediately with the no-auth-method error. -/
theorem requestNewTokenPair_no_auth_method_witness :
    requestNewTokenPair emptyCredential env1 = (.error .noAuthMethod, []) :=
  requestNewTokenPair_no_auth_method emptyCredential rfl rfl rfl env1

/-- Claim C7: rotation is atomic on the state: when the client call fails
the whole old state is returned unchanged, and when it succeeds the access
token, expiration date and refresh token are replaced together from the
response while every other field is unchanged. -/
theorem rotateToken_atomic (cred : CredentialResourceData) (env : Env) :
    (∀ e, (requestNewTokenPair cred env).1 = .error e →
      rotateToken cred env = (.error e, cred))
    ∧ (∀ resp, (requestNewTokenPair cred env).1 = .ok resp →
        (rotateToken cred env).1 = .ok ()
        ∧ (rotateToken cred env).2.accessToken = some resp.accessToken
        ∧ (rotateToken cred env).2.expirationDate = some resp.expires
        ∧ (rotateToken cred env).2.refreshToken = some resp.refreshToken
        ∧ (rotateToken cred env).2.url = cred.url
        ∧ (rotateToken cred env).2.username = cred.username
        ∧ (rotateToken cred env).2.password = cred.password
        ∧ (rotateToken cred env).2.p12Certificate = cred.p12Certificate
        ∧ (rotateToken cred env).2.p12Password = cred.p12Password
        ∧ (rotateToken cred env).2.clientID = cred.clientID
        ∧ (rotateToken cred env).2.trustBundle = cred.trustBundle
        ∧ (rotateToken cred env).2.refreshWindow = cred.refreshWindow) := by
  constructor
  · intro e he
    simp [rotateToken, he]
  · intro resp hr
    simp [rotateToken, hr]

/-- Claim C7 (witness): the success branch of the atomicity statement at the
concrete state `cred1` and environment `env1`, whose refresh exchange
returns the triple `("at2", "rt2", 2000000)`. -/
theorem rotateToken_atomic_witness :
    (rotateToken cred1 env1).1 = .ok ()
    ∧ (rotateToken cred1 env1).2.accessToken = some "at2"
    ∧ (rotateToken cred1 env1).2.expirationDate = some 2000000
    ∧ (rotateToken cred1 env1).2.refreshToken = some "rt2"
    ∧ (rotateToken cred1 env1).2.url = cred1.url
    ∧ (rotateToken cred1 env1).2.username = cred1.username
    ∧ (rotateToken cred1 env1).2.password = cred1.password
    ∧ (rotateToken cred1 env1).2.p12Certificate = cred1.p12Certificate
    ∧ (rotateToken cred1 env1).2.p12Password = cred1.p12Password
    ∧ (rotateToken cred1 env1).2.clientID = cred1.clientID
    ∧ (rotateToken cred1 env1).2.trustBundle = cred1.trustBundle
    ∧ (rotateToken cred1 env1).2.refreshWindow = cred1.refreshWindow :=
  (rotateToken_atomic cred1 env1).2
    { accessToken := "at2", refreshToken := "rt2", expires := 2000000 } rfl

/-- Environment where the remote revoke call fails. -/
def env9 : Env :=
  { env1 with revokeAccessToken := fun _ => .error (.transport 4) }

/-- Claim C9: deletion is revoke-then-drop: a revoke failure is surfaced as
a diagnostic and the persisted state is not removed; the state is removed
exactly when revocation succeeded; and an error of the remote revoke call
itself is always propagated out of `RevokeToken`, never swallowed. -/
theorem credentialDelete_revoke_then_drop (state : CredentialResourceData)
    (env : Env) :
    (∀ e, revokeToken state env = .error e →
      credentialDelete state env =
        { diagnosticError := some e, stateRemoved := false })
    ∧ (revokeToken state env = .ok () →
        credentialDelete state env =
          { diagnosticError := none, stateRemoved := true })
    ∧ (∀ e, (∃ cfg, createVCertConfig state env = .ok cfg) →
        env.newClient = .ok () →
        env.revokeAccessToken (valueString state.accessToken) = .error e →
        revokeToken state env = .error e) := by
  refine ⟨?_, ?_, ?_⟩
  · intro e he
    simp [credentialDelete, he]
  · intro h
    simp [credentialDelete, h]
  · intro e hcfg hnc hrev
    obtain ⟨cfg, hcfg⟩ := hcfg
    simp [revokeToken, hcfg, hnc, hrev]

/-- Claim C9 (witness): deletion at the concrete state `cred3` under the
failing-revocation environment `env9` reports the failure and keeps the
state. -/
theorem credentialDelete_revoke_then_drop_witness :
    credentialDelete cred3 env9 =
      { diagnosticError := some (.transport 4), stateRemoved := false } :=
  (credentialDelete_revoke_then_drop cred3 env9).1 (.transport 4)
    ((credentialDelete_revoke_then_drop cred3 env9).2.2 (.transport 4)
      ⟨_, rfl⟩ rfl rfl)

/-- A state with all three authentication methods configured. -/
def cred2 : CredentialResourceData :=
  { emptyCredential with url := some "https://tpp"
                         refreshToken := some "rt"
                         p12Certificate := some "cert.p12"
                         p12Password := some "p12pw"
                         username := some "user"
                         password := some "pass" }

/-- Environment where the refresh-token exchange and the client-certificate
exchange fail while the username/password exchange succeeds. -/
def env2 : Env :=
  { env1 with
    refreshAccessTokenCall := fun _ _ => .error (.transport 2)
    getRefreshTokenCall := fun a =>
      if a.clientPKCS12 then .error (.transport 3)
      else .ok { accessToken := "at3", refreshToken := "rt3", expires := 3000000 } }

/-- Claim C2: with all three methods configured the cascade runs in the
fixed order refresh-token, PKCS#12, username/password: a succeeding method
returns its triple at once and later methods are never invoked, and when the
first two fail the third is invoked exactly once after them and its outcome
(a success, or its failure wrapped) is what is returned — with the attempt
list `[token, p12, user]`, so the first two are never retried. -/
theorem requestNewTokenPair_cascade_order (cred : CredentialResourceData)
    (env : Env) (hT : tokenMethod cred = true) (hP : p12Method cred = true)
    (hU : userMethod cred = true) :
    (∀ resp, refreshAccessToken cred env = .ok resp →
      requestNewTokenPair cred env = (.ok resp, [.token]))
    ∧ (∀ e resp, refreshAccessToken cred env = .error e →
        getAccessTokenByP12 cred env = .ok resp →
        requestNewTokenPair cred env = (.ok resp, [.token, .p12]))
    ∧ (∀ e e', refreshAccessToken cred env = .error e →
        getAccessTokenByP12 cred env = .error e' →
        requestNewTokenPair cred env =
          ((match getAccessTokenByUsernamePassword cred env with
            | .ok resp => .ok resp
            | .error e'' => .error (.vcertWrap e'')),
           [.token, .p12, .user])) := by
  refine ⟨?_, ?_, ?_⟩
  · intro resp h
    simp [requestNewTokenPair, cascadeTokenStage, hT, hP, hU, h]
  · intro e resp hTf hPok
    simp [requestNewTokenPair, cascadeTokenStage, cascadeP12Stage, hT, hP, hU,
      hTf, hPok]
  · intro e e' hTf hPf
    cases hUr : getAccessTokenByUsernamePassword cred env with
    | ok resp =>
      simp [requestNewTokenPair, cascadeTokenStage, cascadeP12Stage,
        cascadeUserStage, hT, hP, hU, hTf, hPf, hUr]
    | error e'' =>
      simp [requestNewTokenPair, cascadeTokenStage, cascadeP12Stage,
        cascadeUserStage, hT, hP, hU, hTf, hPf, hUr]

/-- Claim C2 (witness): at the concrete state `cred2` under `env2` (first
two methods failing, third succeeding) the cascade returns the third
method's triple and attempted each method exactly once, in order. -/
theorem requestNewTokenPair_cascade_order_witness :
    requestNewTokenPair cred2 env2 =
      ((match getAccessTokenByUsernamePassword cred2 env2 with
        | .ok resp => .ok resp
        | .error e => .error (.vcertWrap e)),
       [.token, .p12, .user]) :=
  (requestNewTokenPair_cascade_order cred2 env2 rfl rfl rfl).2.2
    (.transport 2) (.transport 3) rfl rfl

/-- A state configured for the PKCS#12 method only. -/
def cred4 : CredentialResourceData :=
  { emptyCredential with url := some "https://tpp"
                         p12Certificate := some "file.p12"
                         p12Password := some "p12pw" }

/-- Environment where the keystore read, decode and key-pair derivation all
succeed. -/
def env4 : Env :=
  { env1 with readFile := fun _ => .ok "P12BYTES"
              pkcs12ToPEM := fun _ _ => .ok "PEMDATA"
              x509KeyPair := fun _ => .ok { pem := "PEMDATA" } }

/-- A starting value of the process-wide default transport. -/
def g4 : Globals :=
  { defaultTransport := { disableKeepAlives := false
                          forceAttemptHTTP2 := true
                          tlsClientConfig := none } }

/-- Claim C4 (counterexample): configuring the TLS client for the PKCS#12
exchange succeeds at the concrete state `cred4` under `env4`, yet the
process-wide default transport — the transport of every request that does
not carry its own — is not left unchanged: the call replaces it. -/
theorem configureTLSClient_frame_counterexample :
    (configureTLSClient cred4 env4 g4).1 = .ok ()
    ∧ (configureTLSClient cred4 env4 g4).2.defaultTransport ≠
        g4.defaultTransport := by
  refine ⟨rfl, by decide⟩

/-- Claim C4 (amended): when the PKCS#12 method configures its TLS client,
the derived client identity (and the PEM material as trust roots) is
installed into the process-wide default HTTP transport shared with every
other request that uses the default transport; the transport is replaced
globally rather than scoped to the single exchange call. -/
theorem configureTLSClient_sets_global_transport
    (cred : CredentialResourceData) (env : Env) (g : Globals)
    (t : Transport) (h : deriveTLSTransport cred env = .ok t) :
    configureTLSClient cred env g = (.ok (), { defaultTransport := t })
    ∧ ∃ pemData cert, env.x509KeyPair pemData = .ok cert ∧
        t = { disableKeepAlives := true
              forceAttemptHTTP2 := false
              tlsClientConfig := some
                { renegotiateFreelyAsClient := true
                  certificates := [cert]
                  rootCAsPEM := pemData } } := by
  refine ⟨by simp [configureTLSClient, h], ?_⟩
  simp only [deriveTLSTransport] at h
  cases hr : env.readFile (valueString cred.p12Certificate) with
  | error e => simp [hr] at h
  | ok data =>
    simp only [hr] at h
    cases hp : env.pkcs12ToPEM data (valueString cred.p12Password) with
    | error e => simp [hp] at h
    | ok pemData =>
      simp only [hp] at h
      cases hx : env.x509KeyPair pemData with
      | error e => simp [hx] at h
      | ok cert =>
        simp only [hx] at h
        injection h with h2
        subst h2
        exact ⟨pemData, cert, hx, rfl⟩

/-- The transport that `env4` derives from the keystore of `cred4`. -/
def t4 : Transport :=
  { disableKeepAlives := true
    forceAttemptHTTP2 := false
    tlsClientConfig := some
      { renegotiateFreelyAsClient := true
        certificates := [{ pem := "PEMDATA" }]
        rootCAsPEM := "PEMDATA" } }

/-- Claim C4 (amended, witness): the amended statement at the concrete
state `cred4`, environment `env4` and starting globals `g4`. -/
theorem configureTLSClient_sets_global_transport_witness :
    configureTLSClient cred4 env4 g4 = (.ok (), { defaultTransport := t4 })
    ∧ ∃ pemData cert, env4.x509KeyPair pemData = .ok cert ∧
        t4 = { disableKeepAlives := true
               forceAttemptHTTP2 := false
               tlsClientConfig := some
                 { renegotiateFreelyAsClient := true
                   certificates := [cert]
                   rootCAsPEM := pemData } } :=
  configureTLSClient_sets_global_transport cred4 env4 g4 t4 rfl

/-- Any method recorded by the user/password stage is either inherited from
the accumulator or is the user method with its fields set. -/
theorem mem_cascadeUserStage {cred : CredentialResourceData} {env : Env}
    {tr : List AuthMethod} {m : AuthMethod}
    (h : m ∈ (cascadeUserStage cred env tr).2) :
    m ∈ tr ∨ (m = .user ∧ userMethod cred = true) := by
  unfold cascadeUserStage at h
  cases hu : userMethod cred with
  | false =>
    simp only [hu, Bool.false_eq_true, if_false] at h
    exact .inl h
  | true =>
    simp only [hu, if_true] at h
    cases hg : getAccessTokenByUsernamePassword cred env with
    | ok resp =>
      simp only [hg, List.mem_append, List.mem_singleton] at h
      rcases h with h | h
      · exact .inl h
      · exact .inr ⟨h, rfl⟩
    | error e =>
      simp only [hg, List.mem_append, List.mem_singleton] at h
      rcases h with h | h
      · exact .inl h
      · exact .inr ⟨h, rfl⟩

/-- Any method recorded from the PKCS#12 stage onwards is inherited, or is
the PKCS#12 method with its fields set, or the user method with its fields
set. -/
theorem mem_cascadeP12Stage {cred : CredentialResourceData} {env : Env}
    {tr : List AuthMethod} {m : AuthMethod}
    (h : m ∈ (cascadeP12Stage cred env tr).2) :
    m ∈ tr ∨ (m = .p12 ∧ p12Method cred = true)
      ∨ (m = .user ∧ userMethod cred = true) := by
  unfold cascadeP12Stage at h
  cases hp : p12Method cred with
  | false =>
    simp only [hp, Bool.false_eq_true, if_false] at h
    rcases mem_cascadeUserStage h with h | h
    · exact .inl h
    · exact .inr (.inr h)
  | true =>
    simp only [hp, if_true] at h
    cases hg : getAccessTokenByP12 cred env with
    | ok resp =>
      simp only [hg, List.mem_append, List.mem_singleton] at h
      rcases h with h | h
      · exact .inl h
      · exact .inr (.inl ⟨h, rfl⟩)
    | error e =>
      simp only [hg] at h
      cases hu : userMethod cred with
      | false =>
        simp only [hu, Bool.not_false, if_true, List.mem_append,
          List.mem_singleton] at h
        rcases h with h | h
        · exact .inl h
        · exact .inr (.inl ⟨h, rfl⟩)
      | true =>
        simp only [hu, Bool.not_true, Bool.false_eq_true, if_false] at h
        rcases mem_cascadeUserStage h with h | h
        · simp only [List.mem_append, List.mem_singleton] at h
          rcases h with h | h
          · exact .inl h
          · exact .inr (.inl ⟨h, rfl⟩)
        · exact .inr (.inr ⟨h.1, rfl⟩)

/-- Any method recorded by the whole cascade names a method whose required
fields are set. -/
theorem mem_cascadeTokenStage {cred : CredentialResourceData} {env : Env}
    {tr : List AuthMethod} {m : AuthMethod}
    (h : m ∈ (cascadeTokenStage cred env tr).2) :
    m ∈ tr ∨ (m = .token ∧ tokenMethod cred = true)
      ∨ (m = .p12 ∧ p12Method cred = true)
      ∨ (m = .user ∧ userMethod cred = true) := by
  unfold cascadeTokenStage at h
  cases ht : tokenMethod cred with
  | false =>
    simp only [ht, Bool.false_eq_true, if_false] at h
    rcases mem_cascadeP12Stage h with h | h
    · exact .inl h
    · exact .inr (.inr h)
  | true =>
    simp only [ht, if_true] at h
    cases hg : refreshAccessToken cred env with
    | ok resp =>
      simp only [hg, List.mem_append, List.mem_singleton] at h
      rcases h with h | h
      · exact .inl h
      · exact .inr (.inl ⟨h, rfl⟩)
    | error e =>
      simp only [hg] at h
      by_cases hrest : (!(p12Method cred) && !(userMethod cred)) = true
      · simp only [hrest, if_true, List.mem_append, List.mem_singleton] at h
        rcases h with h | h
        · exact .inl h
        · exact .inr (.inl ⟨h, rfl⟩)
      · simp only [hrest, if_false] at h
        rcases mem_cascadeP12Stage h with h | h
        · simp only [List.mem_append, List.mem_singleton] at h
          rcases h with h | h
          · exact .inl h
          · exact .inr (.inl ⟨h, rfl⟩)
        · exact .inr (.inr h)

/-- A state whose refresh token is set to the empty string (reachable
through the import string entry `refresh_token=`). -/
def cred5 : CredentialResourceData :=
  { emptyCredential with refreshToken := some "" }

/-- Environment where the refresh-token exchange fails. -/
def env5 : Env :=
  { env1 with refreshAccessTokenCall := fun _ _ => .error (.transport 9) }

/-- Claim C5 (counterexample): at a state whose refresh token is the empty
string — a set-but-empty value — the cascade does attempt the refresh-token
method (the attempt list is `[token]`), so the methods are not gated on the
fields being non-empty. -/
theorem cascade_empty_refresh_token_counterexample :
    valueString cred5.refreshToken = ""
    ∧ (requestNewTokenPair cred5 env5).2 = [.token] := by
  refine ⟨rfl, rfl⟩

/-- Claim C5 (amended): each of the three methods is attempted only if its
required fields are non-null (set in the state, possibly to an empty
string): the refresh-token method only when `refreshToken` is set, the
client-certificate method only when both `p12Certificate` and `p12Password`
are set, the username/password method only when both `username` and
`password` are set. -/
theorem cascade_attempts_require_configured_fields
    (cred : CredentialResourceData) (env : Env) :
    (AuthMethod.token ∈ (requestNewTokenPair cred env).2 →
      isNull cred.refreshToken = false)
    ∧ (AuthMethod.p12 ∈ (requestNewTokenPair cred env).2 →
        isNull cred.p12Certificate = false ∧ isNull cred.p12Password = false)
    ∧ (AuthMethod.user ∈ (requestNewTokenPair cred env).2 →
        isNull cred.username = false ∧ isNull cred.password = false) := by
  have key : ∀ m ∈ (requestNewTokenPair cred env).2,
      (m = .token ∧ tokenMethod cred = true)
      ∨ (m = .p12 ∧ p12Method cred = true)
      ∨ (m = .user ∧ userMethod cred = true) := by
    intro m hm
    unfold requestNewTokenPair at hm
    by_cases hall :
        (!(tokenMethod cred) && !(p12Method cred) && !(userMethod cred)) = true
    · simp [hall] at hm
    · simp only [hall, if_false] at hm
      rcases mem_cascadeTokenStage hm with h | h
      · simp at h
      · exact h
  refine ⟨?_, ?_, ?_⟩
  · intro hm
    rcases key _ hm with ⟨_, h⟩ | ⟨h, _⟩ | ⟨h, _⟩
    · simpa [tokenMethod, Bool.not_eq_true'] using h
    · cases h
    · cases h
  · intro hm
    rcases key _ hm with ⟨h, _⟩ | ⟨_, h⟩ | ⟨h, _⟩
    · cases h
    · simpa [p12Method, Bool.not_eq_true'] using h
    · cases h
  · intro hm
    rcases key _ hm with ⟨h, _⟩ | ⟨h, _⟩ | ⟨_, h⟩
    · cases h
    · cases h
    · simpa [userMethod, Bool.not_eq_true'] using h

/-- Claim C5 (amended, witness): at the concrete state `cred5` the refresh
method is attempted and indeed its `refreshToken` field is non-null. -/
theorem cascade_attempts_require_configured_fields_witness :
    isNull cred5.refreshToken = false :=
  (cascade_attempts_require_configured_fields cred5 env5).1 (by decide)

/-- A bad entry anywhere in the list makes the map-building loop fail with
the malformed-import error. -/
theorem getValuesMapLoop_error_of_bad (items : List String) :
    ∀ dict, (∃ item ∈ items, cut item = none) →
      ∃ it, getValuesMapLoop items dict = .error (.malformedImport it) := by
  induction items with
  | nil =>
    intro dict h
    rcases h with ⟨it, hmem, _⟩
    cases hmem
  | cons a rest ih =>
    intro dict h
    cases hc : cut a with
    | none => exact ⟨a, by simp [getValuesMapLoop, hc]⟩
    | some kv =>
      rcases h with ⟨it, hmem, hcut⟩
      rcases List.mem_cons.mp hmem with rfl | hmem2
      · rw [hc] at hcut; cases hcut
      · obtain ⟨it2, h2⟩ := ih (mapInsert dict kv.1 kv.2) ⟨it, hmem2, hcut⟩
        exact ⟨it2, by simp only [getValuesMapLoop, hc]; exact h2⟩

/-- Conversely the loop only fails on a list containing an entry without a
separator, and the error names that entry. -/
theorem getValuesMapLoop_bad_of_error (items : List String) :
    ∀ dict e, getValuesMapLoop items dict = .error e →
      ∃ it, it ∈ items ∧ cut it = none ∧ e = .malformedImport it := by
  induction items with
  | nil =>
    intro dict e h
    cases h
  | cons a rest ih =>
    intro dict e h
    cases hc : cut a with
    | none =>
      simp only [getValuesMapLoop, hc] at h
      injection h with h2
      exact ⟨a, List.mem_cons_self a rest, hc, h2.symm⟩
    | some kv =>
      simp only [getValuesMapLoop, hc] at h
      obtain ⟨it, hmem, hcut, he⟩ := ih _ _ h
      exact ⟨it, List.mem_cons_of_mem _ hmem, hcut, he⟩

/-- A map produced by the import string `url=https://x,expiration=99`. -/
def cred8expiration : CredentialResourceData :=
  { emptyCredential with url := some "https://x"
                         clientID := some defaultClientID
                         refreshWindow := some 30 }

/-- Claim C8 (counterexample): the import string
`url=https://x,expiration=99` parses, its map does bind the recognized key
`expiration` to `99`, yet the constructed state leaves the expiration field
null — the recognized `expiration` key is not mapped to its state field. -/
theorem importState_expiration_key_counterexample :
    getValuesMap "url=https://x,expiration=99" =
      .ok [("url", "https://x"), ("expiration", "99")]
    ∧ mapLookup [("url", "https://x"), ("expiration", "99")] "expiration" =
        some "99"
    ∧ importState "url=https://x,expiration=99" = .ok cred8expiration
    ∧ cred8expiration.expirationDate = none := by
  refine ⟨rfl, rfl, rfl, rfl⟩

/-- Claim C8 (amended): the import string is split on `,` and each entry on
its first `=`; it fails with the malformed-import error exactly when some
entry lacks a `=`; on success every recognized key except `expiration` is
mapped to its state field (the `expiration` key is parsed but ignored and
the expiration field stays null), `clientID` gets the fixed default when
absent, and `refreshWindow` is parsed as an integer, defaulting to 30 when
absent and failing when it does not parse. In particular
`url=https://x,refresh_token=abc` parses to the state holding that url and
refresh token, and `badentry` fails. -/
theorem importState_contract :
    (∀ s : String, (∃ item ∈ splitOnComma s, cut item = none) ↔
      ∃ it, getValuesMap s = .error (.malformedImport it))
    ∧ (∀ s dataMap d, getValuesMap s = .ok dataMap → importState s = .ok d →
        d.url = mapLookup dataMap "url"
        ∧ d.username = mapLookup dataMap "username"
        ∧ d.password = mapLookup dataMap "password"
        ∧ d.p12Certificate = mapLookup dataMap "p12_cert_filename"
        ∧ d.p12Password = mapLookup dataMap "p12_cert_password"
        ∧ d.accessToken = mapLookup dataMap "access_token"
        ∧ d.refreshToken = mapLookup dataMap "refresh_token"
        ∧ d.trustBundle = mapLookup dataMap "trust_bundle"
        ∧ d.expirationDate = none
        ∧ (mapLookup dataMap "client_id" = none →
            d.clientID = some defaultClientID)
        ∧ (∀ c, mapLookup dataMap "client_id" = some c → d.clientID = some c)
        ∧ (mapLookup dataMap "refresh_window" = none →
            d.refreshWindow = some 30)
        ∧ (∀ v n, mapLookup dataMap "refresh_window" = some v →
            atoi v = some n → d.refreshWindow = some n))
    ∧ (∀ s dataMap v, getValuesMap s = .ok dataMap →
        mapLookup dataMap "refresh_window" = some v → atoi v = none →
        importState s = .error (.invalidRefreshWindow v))
    ∧ importState "url=https://x,refresh_token=abc" =
        .ok { emptyCredential with url := some "https://x"
                                   refreshToken := some "abc"
                                   clientID := some defaultClientID
                                   refreshWindow := some 30 }
    ∧ getValuesMap "badentry" = .error (.malformedImport "badentry") := by
  refine ⟨?_, ?_, ?_, rfl, rfl⟩
  · intro s
    constructor
    · intro h
      exact getValuesMapLoop_error_of_bad (splitOnComma s) [] h
    · rintro ⟨it, hit⟩
      obtain ⟨it2, hmem, hcut, _⟩ :=
        getValuesMapLoop_bad_of_error (splitOnComma s) [] _ hit
      exact ⟨it2, hmem, hcut⟩
  · intro s dataMap d hmap himp
    simp only [importState, hmap] at himp
    cases hrw : mapLookup dataMap "refresh_window" with
    | none =>
      simp only [hrw] at himp
      injection himp with h2
      subst h2
      refine ⟨rfl, rfl, rfl, rfl, rfl, rfl, rfl, rfl, rfl, ?_, ?_, ?_, ?_⟩
      · intro hcid; simp [hcid]
      · intro c hcid; simp [hcid]
      · intro _; rfl
      · intro v n hv _
        cases hv
    | some v =>
      simp only [hrw] at himp
      cases ha : atoi v with
      | none =>
        simp only [ha] at himp
        cases himp
      | some n =>
        simp only [ha] at himp
        injection himp with h2
        subst h2
        refine ⟨rfl, rfl, rfl, rfl, rfl, rfl, rfl, rfl, rfl, ?_, ?_, ?_, ?_⟩
        · intro hcid; simp [hcid]
        · intro c hcid; simp [hcid]
        · intro h0
          cases h0
        · intro v' n' hv' hn'
          injection hv' with hv2
          subst hv2
          rw [ha] at hn'
          injection hn' with hn2
          rw [hn2]
  · intro s dataMap v hmap hrw ha
    simp only [importState, hmap, hrw, ha]

/-- Claim C8 (amended, witness): the amended statement instantiated on the
concrete import string `refresh_window=nope`, whose refresh-window value
does not parse as an integer. -/
theorem importState_contract_witness :
    importState "refresh_window=nope" =
      .error (.invalidRefreshWindow "nope") :=
  importState_contract.2.2.1 "refresh_window=nope"
    [("refresh_window", "nope")] "nope" rfl rfl rfl

/-- Go's first-result-or-second choice on option values. -/
def optOr : Option String → Option String → Option String
  | some v, _ => some v
  | none, o => o

/-- The value bound by the last entry carrying the key, if any. -/
def lastBinding (entries : List (String × String)) (k : String) :
    Option String :=
  mapLookup entries.reverse k

theorem optOr_none_right (o : Option String) : optOr o none = o := by
  cases o <;> rfl

/-- Map assignment overwrites the binding of its key and nothing else. -/
theorem mapLookup_mapInsert (d : List (String × String)) (a b k : String) :
    mapLookup (mapInsert d a b) k =
      if a = k then some b else mapLookup d k := by
  induction d with
  | nil => rfl
  | cons hd tl ih =>
    obtain ⟨k', v'⟩ := hd
    by_cases h1 : k' = a
    · subst h1
      by_cases h2 : k' = k
      · simp [mapInsert, mapLookup, h2]
      · simp [mapInsert, mapLookup, h2]
    · by_cases h2 : k' = k
      · have hak : ¬(a = k) := fun hh => h1 (h2.trans hh.symm)
        have hka : ¬(k = a) := fun hh => hak hh.symm
        simp [mapInsert, h1, mapLookup, h2, hak, hka]
      · simp [mapInsert, h1, mapLookup, h2, ih]

theorem mapLookup_append (xs ys : List (String × String)) (k : String) :
    mapLookup (xs ++ ys) k = optOr (mapLookup xs k) (mapLookup ys k) := by
  induction xs with
  | nil => simp [mapLookup, optOr]
  | cons hd tl ih =>
    obtain ⟨k', v'⟩ := hd
    by_cases h : k' = k
    · simp [mapLookup, h, optOr]
    · simp [mapLookup, h, ih]

/-- On a list of entries that all carry a separator the loop succeeds, and
looking up a key in the result yields the value of the last entry binding
it, falling back to the starting dictionary. -/
theorem getValuesMapLoop_lookup (items : List String) :
    ∀ dict, (∀ item ∈ items, (cut item).isSome = true) →
      ∃ m, getValuesMapLoop items dict = .ok m ∧
        ∀ k, mapLookup m k =
          optOr (lastBinding (items.filterMap cut) k) (mapLookup dict k) := by
  induction items with
  | nil =>
    intro dict _
    exact ⟨dict, rfl, fun k => by simp [lastBinding, mapLookup, optOr]⟩
  | cons a rest ih =>
    intro dict h
    cases hc : cut a with
    | none =>
      have hbad := h a (List.mem_cons_self a rest)
      rw [hc] at hbad
      cases hbad
    | some kv =>
      obtain ⟨ka, vb⟩ := kv
      obtain ⟨m, hm, hlook⟩ := ih (mapInsert dict ka vb)
        (fun item hmem => h item (List.mem_cons_of_mem a hmem))
      refine ⟨m, by simp only [getValuesMapLoop, hc]; exact hm, ?_⟩
      intro k
      rw [hlook k]
      have hfm : (a :: rest).filterMap cut = (ka, vb) :: rest.filterMap cut := by
        simp [List.filterMap_cons, hc]
      rw [hfm, mapLookup_mapInsert]
      unfold lastBinding
      rw [List.reverse_cons, mapLookup_append]
      cases hx : mapLookup (rest.filterMap cut).reverse k with
      | some v => simp [optOr]
      | none =>
        simp only [optOr]
        by_cases hk : ka = k
        · simp [mapLookup, hk, optOr]
        · simp [mapLookup, hk, optOr]

/-- Claim C10: an import string all of whose comma-separated entries carry a
`=` always parses (duplicate keys are never an error), and each key is bound
to the value of the last entry carrying it — later entries silently
overwrite earlier ones. -/
theorem getValuesMap_duplicate_keys_last_wins (s k : String)
    (h : ∀ item ∈ splitOnComma s, (cut item).isSome = true) :
    ∃ m, getValuesMap s = .ok m ∧
      mapLookup m k = lastBinding ((splitOnComma s).filterMap cut) k := by
  obtain ⟨m, hm, hlook⟩ := getValuesMapLoop_lookup (splitOnComma s) [] h
  refine ⟨m, hm, ?_⟩
  rw [hlook k]
  simp [mapLookup, optOr_none_right]

/-- Claim C10 (witness): on `a=1,b=2,a=3` parsing succeeds and `a` is bound
to the value of the last `a` entry. -/
theorem getValuesMap_duplicate_keys_last_wins_witness :
    ∃ m, getValuesMap "a=1,b=2,a=3" = .ok m ∧
      mapLookup m "a" =
        lastBinding ((splitOnComma "a=1,b=2,a=3").filterMap cut) "a" :=
  getValuesMap_duplicate_keys_last_wins "a=1,b=2,a=3" "a" (by decide)

end VenafiToken
